import Mathlib

/-!
# Verification of the STMicroelectronics camera HAL capture core

Shallow embedding, in Lean 4, of the parts of the
`hardware-peripheral-camera` repository that the verified claims are about:

* the V4L2 format catalogue (`src/common/v4l2/stream_format.cpp`),
* the V4L2 device wrapper format negotiation
  (`src/common/v4l2/v4l2_wrapper.cpp`),
* the ARC frame buffers and conversion pipeline
  (`src/common/arc/frame_buffer.cpp`, `image_processor.cpp`,
  `cached_frame.cpp`),
* the capture request tracker (`src/device/3.2/camera_tracker.cpp`) and the
  session operations built on it (`src/device/3.2/camera_device_session.cpp`).

C++ machine integers are modelled as `Nat`/`Int`; fourcc codes use the exact
V4L2 numeric values.  Calls into external libraries (`libyuv`, the kernel
ioctl layer, the JPEG encoder) are modelled as explicit function parameters
("oracles") returning the library's result code together with the bytes it
would have produced, so every repository-side branch remains visible while
the external code stays abstract.
-/

namespace CameraHal

/-! ## Pixel format constants (videodev2.h fourcc values) -/

def V4L2_PIX_FMT_YUV420 : Nat := 0x32315559
def V4L2_PIX_FMT_YVU420 : Nat := 0x32315659
def V4L2_PIX_FMT_NV21 : Nat := 0x3132564E
def V4L2_PIX_FMT_YUYV : Nat := 0x56595559
def V4L2_PIX_FMT_MJPEG : Nat := 0x47504A4D
def V4L2_PIX_FMT_JPEG : Nat := 0x4745504A
def V4L2_PIX_FMT_BGR32 : Nat := 0x34524742
def V4L2_PIX_FMT_RGB32 : Nat := 0x34424752

/-- `V4L2_BUF_TYPE_VIDEO_CAPTURE` (`v4l2_buf_type` value 1). -/
def V4L2_BUF_TYPE_VIDEO_CAPTURE : Nat := 1

/-! ## StreamFormat (src/common/v4l2/stream_format.cpp)

The C++ `StreamFormat` carries `type_`, `v4l2_pixel_format_`, `width_` and
`height_` (plus layout fields that `operator==` deliberately ignores and the
functions below never read).  `operator==` compares exactly these four
fields. -/

structure StreamFormat where
  type : Nat
  v4l2PixelFormat : Nat
  width : Nat
  height : Nat
  deriving DecidableEq, Repr

abbrev StreamFormats := List StreamFormat

/-- `StreamFormat::FindMatchingFormat`: index of the first entry matching
pixel format, width and height, `-1` when absent.  The C++ is a linear scan
with an early return. -/
def findMatchingFormat (formats : StreamFormats) (v4l2PixelFormat width height : Nat) :
    Int :=
  match formats with
  | [] => -1
  | f :: rest =>
    if f.v4l2PixelFormat = v4l2PixelFormat ∧ f.width = width ∧ f.height = height then 0
    else
      let r := findMatchingFormat rest v4l2PixelFormat width height
      if r < 0 then -1 else r + 1

/-- `StreamFormat::FindFormatByResolution`: index of the first entry whose
resolution matches, `-1` when absent. -/
def findFormatByResolution (formats : StreamFormats) (width height : Nat) : Int :=
  match formats with
  | [] => -1
  | f :: rest =>
    if f.width = width ∧ f.height = height then 0
    else
      let r := findFormatByResolution rest width height
      if r < 0 then -1 else r + 1

/-- Inner loop body of `StreamFormat::GetQualifiedStreams`: for one qualified
fourcc, walk the supported streams in order, skipping entries of a different
fourcc and entries whose resolution the accumulated list already holds.  The
duplicate test is the C++ one verbatim:
`FindFormatByResolution(qualified_streams, w, h) > 0` (note: `> 0`, not
`>= 0`). -/
def getQualifiedStreamsInner (qualifiedFormat : Nat) (supported : StreamFormats)
    (acc : StreamFormats) : StreamFormats :=
  match supported with
  | [] => acc
  | s :: rest =>
    if s.v4l2PixelFormat ≠ qualifiedFormat then
      getQualifiedStreamsInner qualifiedFormat rest acc
    else if findFormatByResolution acc s.width s.height > 0 then
      getQualifiedStreamsInner qualifiedFormat rest acc
    else
      getQualifiedStreamsInner qualifiedFormat rest (acc ++ [s])

/-- Outer loop of `StreamFormat::GetQualifiedStreams` over the
priority-ordered qualified fourcc list. -/
def getQualifiedStreamsLoop (qualifiedFormats : List Nat) (supported : StreamFormats)
    (acc : StreamFormats) : StreamFormats :=
  match qualifiedFormats with
  | [] => acc
  | q :: rest =>
    getQualifiedStreamsLoop rest supported (getQualifiedStreamsInner q supported acc)

/-- `StreamFormat::GetQualifiedStreams`. -/
def getQualifiedStreams (qualifiedFormats : List Nat) (supported : StreamFormats) :
    StreamFormats :=
  getQualifiedStreamsLoop qualifiedFormats supported []

/-! ## Frame buffers (src/common/arc/frame_buffer.cpp)

`FrameBuffer` is the abstract base; `AllocatedFrameBuffer` owns a growable
heap allocation and overrides `SetDataSize`; `V4L2FrameBuffer` and
`GrallocFrameBuffer` keep the base `SetDataSize`.  Backing bytes are a
`List Nat`; a fresh allocation is modelled as zero bytes (the C++ contents
are indeterminate, and no verified property reads them). -/

inductive FrameBufferKind where
  | base
  | allocated
  | v4l2
  | gralloc
  deriving DecidableEq, Repr

structure FrameBuffer where
  data : List Nat
  dataSize : Nat
  bufferSize : Nat
  width : Nat
  height : Nat
  fourcc : Nat
  kind : FrameBufferKind
  deriving DecidableEq, Repr

/-- `FrameBuffer::SetDataSize` (the base-class version): reject a size larger
than the capacity with `-EINVAL`, otherwise store it. -/
def frameBufferSetDataSize (b : FrameBuffer) (dataSize : Nat) : Int × FrameBuffer :=
  if dataSize > b.bufferSize then (-22, b)
  else (0, { b with dataSize := dataSize })

/-- `AllocatedFrameBuffer::SetDataSize`: when the requested size exceeds the
capacity, reallocate the backing store to exactly that size; then store the
size.  Never fails. -/
def allocatedFrameBufferSetDataSize (b : FrameBuffer) (size : Nat) : Int × FrameBuffer :=
  if size > b.bufferSize then
    (0, { b with data := List.replicate size 0, bufferSize := size, dataSize := size })
  else (0, { b with dataSize := size })

/-- Virtual dispatch of `SetDataSize`: only `AllocatedFrameBuffer` overrides
the base implementation. -/
def FrameBuffer.setDataSize (b : FrameBuffer) (size : Nat) : Int × FrameBuffer :=
  match b.kind with
  | .allocated => allocatedFrameBufferSetDataSize b size
  | _ => frameBufferSetDataSize b size

/-! ## Image processor (src/common/arc/image_processor.cpp) -/

/-- `ImageProcessor::Align16`: `(value + 15) & ~15`, i.e. round up to a
multiple of 16. -/
def align16 (value : Nat) : Nat := (value + 15) / 16 * 16

/-- `ImageProcessor::GetConvertedSize`: byte count of a `width`×`height`
image in format `fourcc`; `0` signals "unsupported" (odd dimension or
unrecognized format). -/
def getConvertedSize (fourcc width height : Nat) : Nat :=
  if width % 2 ≠ 0 ∨ height % 2 ≠ 0 then 0
  else if fourcc = V4L2_PIX_FMT_YVU420 then
    align16 width * height + align16 (width / 2) * height
  else if fourcc = V4L2_PIX_FMT_YUV420 ∨ fourcc = V4L2_PIX_FMT_NV21 then
    width * height * 3 / 2
  else if fourcc = V4L2_PIX_FMT_BGR32 ∨ fourcc = V4L2_PIX_FMT_RGB32 then
    width * height * 4
  else 0

/-- `ImageProcessor::GetQualifiedFormats`: intersect the device-supported
fourcc set with `kSupportedFourCCs` (`{YUYV, MJPEG}`), in the latter's
priority order, deduplicating with `std::find`. -/
def getQualifiedFormatsLoop (supportedFourccs : List Nat) (supportedFormats : List Nat)
    (acc : List Nat) : List Nat :=
  match supportedFourccs with
  | [] => acc
  | f :: rest =>
    let acc :=
      supportedFormats.foldl
        (fun acc s => if s ≠ f then acc else if s ∈ acc then acc else acc ++ [s]) acc
    getQualifiedFormatsLoop rest supportedFormats acc

def kSupportedFourCCs : List Nat := [V4L2_PIX_FMT_YUYV, V4L2_PIX_FMT_MJPEG]

def getQualifiedFormats (supportedFormats : List Nat) : List Nat :=
  getQualifiedFormatsLoop kSupportedFourCCs supportedFormats []

/-- Camera metadata is not inspected by the conversion pipeline: only the JPEG
encoder reads it.  Modelled as an abstract tag/value association list. -/
def CameraMetadata := List (Nat × Nat)

/-- External conversion kernels (libyuv and the JPEG encoder).  Each returns
the library result code together with the destination bytes it produced; the
repository code only branches on the result code. -/
structure ExtConvertOps where
  yuy2ToI420 : FrameBuffer → FrameBuffer → Int × List Nat
  i420Copy : FrameBuffer → FrameBuffer → Int × List Nat
  i420ToABGR : FrameBuffer → FrameBuffer → Int × List Nat
  i420ToARGB : FrameBuffer → FrameBuffer → Int × List Nat
  mjpgToI420 : FrameBuffer → FrameBuffer → Int × List Nat
  convertToJpeg : CameraMetadata → FrameBuffer → FrameBuffer → Bool × List Nat

/-- `ImageProcessor::YU12ToYV12`: even-dimension and stride checks, then
`libyuv::I420Copy` with swapped U/V destination planes. -/
def yu12ToYV12 (ext : ExtConvertOps) (src dst : FrameBuffer)
    (width height dstStrideY dstStrideUV : Nat) : Int × List Nat :=
  if width % 2 ≠ 0 ∨ height % 2 ≠ 0 then (-22, dst.data)
  else if dstStrideY < width ∨ dstStrideUV < width / 2 then (-22, dst.data)
  else ext.i420Copy src dst

/-- Interleaving of the V and U quarter planes used by
`ImageProcessor::YU12ToNV21`'s copy loop. -/
def interleave : List Nat → List Nat → List Nat
  | a :: as, b :: bs => a :: b :: interleave as bs
  | _, _ => []

/-- `ImageProcessor::YU12ToNV21`: even-dimension check, then `memcpy` of the
Y plane followed by the VU interleave loop; always succeeds afterwards. -/
def yu12ToNV21 (src : List Nat) (width height : Nat) : Int × List Nat :=
  if width % 2 ≠ 0 ∨ height % 2 ≠ 0 then (-22, src)
  else
    let y := src.take (width * height)
    let uPlane := (src.drop (width * height)).take (width * height / 4)
    let vPlane := (src.drop (width * height * 5 / 4)).take (width * height / 4)
    (0, y ++ interleave vPlane uPlane)

/-- `ImageProcessor::ConvertFormat`: reject odd source dimensions, size the
output via `GetConvertedSize`/`SetDataSize`, then dispatch on the
source/destination fourcc pair.  Returns the C++ result code together with
the (possibly updated) output frame. -/
def convertFormat (ext : ExtConvertOps) (metadata : CameraMetadata)
    (inFrame outFrame : FrameBuffer) : Int × FrameBuffer :=
  if inFrame.width % 2 ≠ 0 ∨ inFrame.height % 2 ≠ 0 then (-22, outFrame)
  else
    let dataSize := getConvertedSize outFrame.fourcc inFrame.width inFrame.height
    let (r, outFrame) := outFrame.setDataSize dataSize
    if r ≠ 0 then (-22, outFrame)
    else if inFrame.fourcc = V4L2_PIX_FMT_YUYV then
      if outFrame.fourcc = V4L2_PIX_FMT_YUV420 then
        let (res, d) := ext.yuy2ToI420 inFrame outFrame
        (if res ≠ 0 then -22 else 0, { outFrame with data := d })
      else (-22, outFrame)
    else if inFrame.fourcc = V4L2_PIX_FMT_YUV420 then
      if outFrame.fourcc = V4L2_PIX_FMT_YVU420 then
        let ystride := align16 inFrame.width
        let uvstride := align16 (inFrame.width / 2)
        let (res, d) :=
          yu12ToYV12 ext inFrame outFrame inFrame.width inFrame.height ystride uvstride
        (if res ≠ 0 then -22 else 0, { outFrame with data := d })
      else if outFrame.fourcc = V4L2_PIX_FMT_YUV420 then
        (0, { outFrame with
                data := inFrame.data.take inFrame.dataSize ++
                  outFrame.data.drop inFrame.dataSize })
      else if outFrame.fourcc = V4L2_PIX_FMT_NV21 then
        let (res, d) := yu12ToNV21 inFrame.data inFrame.width inFrame.height
        (if res ≠ 0 then -22 else 0, { outFrame with data := d })
      else if outFrame.fourcc = V4L2_PIX_FMT_BGR32 then
        let (res, d) := ext.i420ToABGR inFrame outFrame
        (if res ≠ 0 then -22 else 0, { outFrame with data := d })
      else if outFrame.fourcc = V4L2_PIX_FMT_RGB32 then
        let (res, d) := ext.i420ToARGB inFrame outFrame
        (if res ≠ 0 then -22 else 0, { outFrame with data := d })
      else if outFrame.fourcc = V4L2_PIX_FMT_JPEG then
        let (ok, d) := ext.convertToJpeg metadata inFrame outFrame
        (if ok then 0 else -22, { outFrame with data := d })
      else (-22, outFrame)
    else if inFrame.fourcc = V4L2_PIX_FMT_MJPEG then
      if outFrame.fourcc = V4L2_PIX_FMT_YUV420 then
        let (res, d) := ext.mjpgToI420 inFrame outFrame
        (if res ≠ 0 then -22 else 0, { outFrame with data := d })
      else (-22, outFrame)
    else (-22, outFrame)

/-! ## CachedFrame::CropRotateScale (src/common/arc/cached_frame.cpp)

The cached frame is always in the canonical YU12 format.  The function's
observable geometry (crop, rotated intermediate, scale destination) is a
pure computation from the frame's width/height and the rotation argument;
the two libyuv stages (`ConvertToI420` crop+rotate and `I420Scale`) are
modelled by their result codes, passed as oracle arguments.  The scale
destination is the `yu12_frame_` itself, so the final dimensions are the
frame's unchanged width/height. -/

structure CropRotateScaleGeometry where
  croppedWidth : Nat
  croppedHeight : Nat
  margin : Nat
  rotatedWidth : Nat
  rotatedHeight : Nat
  dstWidth : Nat
  dstHeight : Nat
  deriving DecidableEq, Repr

def cropRotateScale (width height : Nat) (rotateDegree : Int)
    (convertToI420Res i420ScaleRes : Int) : Except Int CropRotateScaleGeometry :=
  if height % 2 ≠ 0 ∨ width % 2 ≠ 0 then .error (-22)
  else if height > width then .error (-22)
  else
    let croppedWidth0 := height * height / width
    let croppedWidth :=
      if croppedWidth0 % 2 = 1 then croppedWidth0 + 1 else croppedWidth0
    let croppedHeight := height
    let margin := (width - croppedWidth) / 2
    let rotatedHeight := croppedWidth
    let rotatedWidth := croppedHeight
    if rotateDegree ≠ 90 ∧ rotateDegree ≠ 270 then .error (-22)
    else if convertToI420Res ≠ 0 then .error convertToI420Res
    else if i420ScaleRes ≠ 0 then .error i420ScaleRes
    else
      .ok ⟨croppedWidth, croppedHeight, margin, rotatedWidth, rotatedHeight,
           width, height⟩

/-! ## V4L2Wrapper::SetFormat (src/common/v4l2/v4l2_wrapper.cpp)

The wrapper's negotiation state is the optional current `format_` plus the
`buffer_size_` read back from the driver.  The `VIDIOC_S_FMT` ioctl is
modelled as an oracle mapping the requested format (the struct built by
`FillFormatRequest`) to the ioctl return code, the format the driver reports
back in the mutated struct, and its `sizeimage`. -/

structure V4L2Wrapper where
  format : Option StreamFormat
  bufferSize : Nat
  deriving DecidableEq, Repr

/-- Result of the `VIDIOC_S_FMT` ioctl: return code, the format the driver
stored back into the `v4l2_format` struct, and `fmt.pix.sizeimage`. -/
structure SFmtResult where
  ret : Int
  reported : StreamFormat
  sizeimage : Nat

/-- `V4L2Wrapper::SetFormat`: no-op when the wrapper already negotiated an
equal format, otherwise issue `VIDIOC_S_FMT`, fail with `-ENODEV` when the
ioctl fails, fail with `-EINVAL` when the driver reports back a different
format, and otherwise store the reported format and buffer size. -/
def setFormat (w : V4L2Wrapper) (dev : StreamFormat → SFmtResult)
    (resolvedFormat : StreamFormat) : Int × V4L2Wrapper :=
  if w.format = some resolvedFormat then (0, w)
  else
    let r := dev resolvedFormat
    if r.ret < 0 then (-19, w)
    else if resolvedFormat ≠ r.reported then (-22, w)
    else (0, { format := some r.reported, bufferSize := r.sizeimage })

/-! ## HIDL camera device types (device/3.2) -/

inductive StreamType where
  | OUTPUT
  | INPUT
  deriving DecidableEq, Repr

inductive StreamRotation where
  | ROTATION_0
  | ROTATION_90
  | ROTATION_180
  | ROTATION_270
  deriving DecidableEq, Repr

/-- Numeric value of a `StreamRotation`, for the C++ comparison
`stream.rotation > StreamRotation::ROTATION_0`. -/
def StreamRotation.val : StreamRotation → Nat
  | .ROTATION_0 => 0
  | .ROTATION_90 => 1
  | .ROTATION_180 => 2
  | .ROTATION_270 => 3

inductive BufferStatus where
  | OK
  | ERROR
  deriving DecidableEq, Repr

inductive Status where
  | OK
  | ILLEGAL_ARGUMENT
  | CAMERA_IN_USE
  | MAX_CAMERAS_IN_USE
  | METHOD_NOT_SUPPORTED
  | OPERATION_NOT_SUPPORTED
  | CAMERA_DISCONNECTED
  | INTERNAL_ERROR
  deriving DecidableEq, Repr

inductive ErrorCode where
  | ERROR_DEVICE
  | ERROR_REQUEST
  | ERROR_RESULT
  | ERROR_BUFFER
  deriving DecidableEq, Repr

/-- HIDL `Stream`. -/
structure Stream where
  id : Int
  streamType : StreamType
  width : Nat
  height : Nat
  format : Nat
  usage : Nat
  dataSpace : Nat
  rotation : StreamRotation
  deriving DecidableEq, Repr

/-- HIDL `StreamBuffer`.  The gralloc handle and the two fences are abstract
values; `none` is the C++ `nullptr`. -/
structure StreamBuffer where
  streamId : Int
  bufferId : Nat
  buffer : Option Nat
  status : BufferStatus
  acquireFence : Option Nat
  releaseFence : Option Nat
  deriving DecidableEq, Repr

/-- HIDL `CaptureRequest`.  The settings/fmq fields are read by the request
verification and metadata paths, not by the tracker, and are elided. -/
structure CaptureRequest where
  frameNumber : Nat
  outputBuffers : List StreamBuffer
  inputBuffer : StreamBuffer
  deriving DecidableEq, Repr

/-! ## CameraTracker (src/device/3.2/camera_tracker.cpp)

`capture_list_` is a `std::list<TrackedCapture>` scanned front to back; the
per-capture `output_buffers` queue is FIFO with the head at the front.  The
`tracked_streams_` map (keyed by stream id) backs `trackStream`/`getStream`.
The `stream_buffers_` gralloc-handle cache and the `tracked_settings_`
metadata map are not involved in the verified claims and are elided. -/

def PixelFormat.IMPLEMENTATION_DEFINED : Nat := 0x22

/-- `CameraTracker::InvalidStream`. -/
def InvalidStream : Stream :=
  { id := -1, streamType := .OUTPUT, width := 0, height := 0,
    format := PixelFormat.IMPLEMENTATION_DEFINED, usage := 0, dataSpace := 0,
    rotation := .ROTATION_0 }

/-- `CameraTracker::InvalidStreamBuffer`. -/
def InvalidStreamBuffer : StreamBuffer :=
  { streamId := -1, bufferId := 0, buffer := none, status := .ERROR,
    acquireFence := none, releaseFence := none }

structure TrackedCapture where
  id : Nat
  outputBuffers : List StreamBuffer
  inputBuffer : StreamBuffer
  outputResults : List StreamBuffer
  inputResult : StreamBuffer
  deriving DecidableEq, Repr

structure CameraTracker where
  trackedStreams : List (Nat × Stream)
  captureList : List TrackedCapture
  deriving DecidableEq, Repr

/-- `CameraTracker::getStream`: map lookup, `InvalidStream` when absent. -/
def CameraTracker.getStream (t : CameraTracker) (id : Nat) : Stream :=
  match t.trackedStreams.find? (fun p => p.1 = id) with
  | none => InvalidStream
  | some p => p.2

/-- `CameraTracker::trackCapture`: build a `TrackedCapture` from the request
(buffer handles nulled, pending input recorded only when its stream id is
not `-1`), append it to `capture_list_`, and return the frame number. -/
def CameraTracker.trackCapture (t : CameraTracker) (request : CaptureRequest) :
    Int × CameraTracker :=
  let captureId := request.frameNumber
  let trackedCapture : TrackedCapture :=
    { id := captureId,
      outputBuffers := request.outputBuffers.map (fun b => { b with buffer := none }),
      inputBuffer :=
        if request.inputBuffer.streamId ≠ -1 then
          { request.inputBuffer with buffer := none }
        else InvalidStreamBuffer,
      outputResults := [],
      inputResult := InvalidStreamBuffer }
  (Int.ofNat captureId, { t with captureList := t.captureList ++ [trackedCapture] })

/-- `CameraTracker::hasActiveCapture`: `capture_list_.size() > 0`. -/
def CameraTracker.hasActiveCapture (t : CameraTracker) : Bool :=
  t.captureList.length > 0

/-- Loop of `CameraTracker::popNextOutputBuffer` over `capture_list_`. -/
def popNextOutputBufferLoop :
    List TrackedCapture → StreamBuffer × Int × List TrackedCapture
  | [] => (InvalidStreamBuffer, -1, [])
  | c :: rest =>
    match c.outputBuffers with
    | b :: bs => (b, Int.ofNat c.id, { c with outputBuffers := bs } :: rest)
    | [] =>
      let (buf, id, rest') := popNextOutputBufferLoop rest
      (buf, id, c :: rest')

/-- `CameraTracker::popNextOutputBuffer`: pop the front of the first
non-empty pending-output queue; `(-1, InvalidStreamBuffer)` when none. -/
def CameraTracker.popNextOutputBuffer (t : CameraTracker) :
    StreamBuffer × Int × CameraTracker :=
  let (buf, id, caps) := popNextOutputBufferLoop t.captureList
  (buf, id, { t with captureList := caps })

/-- Loop of `CameraTracker::saveOutputBuffer`. -/
def saveOutputBufferLoop (streamBuffer : StreamBuffer) (captureId : Nat) :
    List TrackedCapture → Int × List TrackedCapture
  | [] => (-1, [])
  | c :: rest =>
    if c.id = captureId then
      (0, { c with outputResults := c.outputResults ++ [streamBuffer] } :: rest)
    else
      let (r, rest') := saveOutputBufferLoop streamBuffer captureId rest
      (r, c :: rest')

/-- `CameraTracker::saveOutputBuffer`: append the filled buffer to the first
matching capture's result list; `-1` when the id is untracked. -/
def CameraTracker.saveOutputBuffer (t : CameraTracker) (streamBuffer : StreamBuffer)
    (captureId : Nat) : Int × CameraTracker :=
  let (r, caps) := saveOutputBufferLoop streamBuffer captureId t.captureList
  (r, { t with captureList := caps })

/-- `CameraTracker::isCaptureCompleted`: for the first capture matching the
id, `1` when its pending-output queue is empty and its pending input is
absent (stream id `-1`), else `0`; `-1` when the id is untracked. -/
def isCaptureCompletedLoop (captureId : Nat) : List TrackedCapture → Int
  | [] => -1
  | c :: rest =>
    if c.id = captureId then
      if c.outputBuffers = [] ∧ c.inputBuffer.streamId = -1 then 1 else 0
    else isCaptureCompletedLoop captureId rest

def CameraTracker.isCaptureCompleted (t : CameraTracker) (captureId : Nat) : Int :=
  isCaptureCompletedLoop captureId t.captureList

/-- Loop of `CameraTracker::popOutputResults`. -/
def popOutputResultsLoop (captureId : Nat) :
    List TrackedCapture → List StreamBuffer × List TrackedCapture
  | [] => ([], [])
  | c :: rest =>
    if c.id = captureId then (c.outputResults, { c with outputResults := [] } :: rest)
    else
      let (res, rest') := popOutputResultsLoop captureId rest
      (res, c :: rest')

/-- `CameraTracker::popOutputResults`: move out the first matching capture's
saved output results. -/
def CameraTracker.popOutputResults (t : CameraTracker) (captureId : Nat) :
    List StreamBuffer × CameraTracker :=
  let (res, caps) := popOutputResultsLoop captureId t.captureList
  (res, { t with captureList := caps })

/-- Loop of `CameraTracker::popInputResult`. -/
def popInputResultLoop (captureId : Nat) :
    List TrackedCapture → StreamBuffer × List TrackedCapture
  | [] => (InvalidStreamBuffer, [])
  | c :: rest =>
    if c.id = captureId then
      (c.inputResult, { c with inputResult := InvalidStreamBuffer } :: rest)
    else
      let (res, rest') := popInputResultLoop captureId rest
      (res, c :: rest')

/-- `CameraTracker::popInputResult`. -/
def CameraTracker.popInputResult (t : CameraTracker) (captureId : Nat) :
    StreamBuffer × CameraTracker :=
  let (res, caps) := popInputResultLoop captureId t.captureList
  (res, { t with captureList := caps })

/-- Loop of `CameraTracker::untrackCapture` (erase the first match, then
break). -/
def untrackCaptureLoop (captureId : Nat) : List TrackedCapture → List TrackedCapture
  | [] => []
  | c :: rest => if c.id = captureId then rest else c :: untrackCaptureLoop captureId rest

/-- `CameraTracker::untrackCapture` (the `capture_list_` part; the settings
map erase is elided with the settings map itself). -/
def CameraTracker.untrackCapture (t : CameraTracker) (captureId : Nat) : CameraTracker :=
  { t with captureList := untrackCaptureLoop captureId t.captureList }

/-- `CameraTracker::clearCaptures`. -/
def CameraTracker.clearCaptures (t : CameraTracker) : CameraTracker :=
  { t with captureList := [] }

/-! ## CameraDeviceSession (src/device/3.2/camera_device_session.cpp)

The session state kept here is what the verified operations read and write:
the lifecycle flags behind `initStatus()`, the capture tracker, and the
`started_` streaming flag.  Callbacks to the client (`notify`,
`processCaptureResult`) are modelled as an emitted event list. -/

structure StreamConfiguration where
  streams : List Stream
  deriving DecidableEq, Repr

structure CameraDeviceSession where
  initFail : Bool
  disconnected : Bool
  closed : Bool
  started : Bool
  cameraTracker : CameraTracker
  deriving DecidableEq, Repr

/-- `CameraDeviceSession::initStatus`. -/
def initStatus (s : CameraDeviceSession) : Status :=
  if s.initFail then .INTERNAL_ERROR
  else if s.disconnected then .CAMERA_DISCONNECTED
  else if s.closed then .INTERNAL_ERROR
  else .OK

/-- First loop of `configureStreamsVerification`: reject any stream with a
rotation above `ROTATION_0`, otherwise count input and output streams. -/
def checkStreamProperties :
    List Stream → Nat → Nat → Option Status × Nat × Nat
  | [], input, output => (none, input, output)
  | s :: rest, input, output =>
    if s.rotation.val > StreamRotation.ROTATION_0.val then
      (some .ILLEGAL_ARGUMENT, input, output)
    else if s.streamType = .OUTPUT then checkStreamProperties rest input (output + 1)
    else checkStreamProperties rest (input + 1) output

/-- Second loop of `configureStreamsVerification`: an already-tracked stream
may only change rotation and usage.  The C++ looks the stream up by id
(`uint32_t` key); ids of real streams are non-negative, modelled with
`Int.toNat`. -/
def checkExistingStreams (t : CameraTracker) : List Stream → Option Status
  | [] => none
  | s :: rest =>
    let tracked := t.getStream s.id.toNat
    if tracked = InvalidStream then checkExistingStreams t rest
    else if tracked.streamType ≠ s.streamType ∨ tracked.width ≠ s.width ∨
        tracked.height ≠ s.height ∨ tracked.format ≠ s.format ∨
        tracked.dataSpace ≠ s.dataSpace then
      some .ILLEGAL_ARGUMENT
    else checkExistingStreams t rest

/-- `CameraDeviceSession::configureStreamsVerification`: a pure check — the
C++ function only reads session state and returns a `Status`; on any
non-`OK` result `configureStreams` returns before touching stream or driver
state.  The in-flight-capture check comes first, before the `initStatus`
short-circuit and every argument check. -/
def configureStreamsVerification (s : CameraDeviceSession)
    (requestedConfiguration : StreamConfiguration) : Status :=
  let status := initStatus s
  if s.cameraTracker.hasActiveCapture then .INTERNAL_ERROR
  else if status ≠ .OK then status
  else if requestedConfiguration.streams.length = 0 then .ILLEGAL_ARGUMENT
  else
    match checkStreamProperties requestedConfiguration.streams 0 0 with
    | (some bad, _, _) => bad
    | (none, input, output) =>
      if input > 1 ∨ output < 1 then .ILLEGAL_ARGUMENT
      else
        match checkExistingStreams s.cameraTracker requestedConfiguration.streams with
        | some bad => bad
        | none => .OK

/-- Client-visible callbacks emitted while processing results: the
`notify(ERROR)` message, the `notify(SHUTTER)` message, and the
`processCaptureResult` delivery of a completed request. -/
inductive SessionEvent where
  | errorNotify (frameNumber : Nat) (streamId : Int) (code : ErrorCode)
  | shutterNotify (frameNumber : Nat)
  | captureResult (frameNumber : Nat) (outputResults : List StreamBuffer)
      (inputResult : StreamBuffer)
  deriving DecidableEq, Repr

/-- `CameraDeviceSession::processCaptureResult` (the tracker part): save the
filled buffer; when the capture became complete, pop its results, untrack
it, and emit the shutter notification followed by the capture-result
delivery.  Metadata handling (`getCaptureSettings`,
`processCaptureResultMetadata`) only fills the delivered result's metadata
and is elided. -/
def processCaptureResultOp (t : CameraTracker) (captureId : Nat)
    (streamBuffer : StreamBuffer) : Status × CameraTracker × List SessionEvent :=
  let (r, t1) := t.saveOutputBuffer streamBuffer captureId
  let res := if r ≥ 0 then t1.isCaptureCompleted captureId else r
  if res < 0 then (.INTERNAL_ERROR, t1, [])
  else if res > 0 then
    let (inputResult, t2) := t1.popInputResult captureId
    let (outputResults, t3) := t2.popOutputResults captureId
    let t4 := t3.untrackCapture captureId
    (.OK, t4,
      [.shutterNotify captureId, .captureResult captureId outputResults inputResult])
  else (.OK, t1, [])

/-- `CameraDeviceSession::processCaptureBufferError`: notify the client of
the per-buffer error, then dispatch on the error code.  For `ERROR_BUFFER`
the buffer is marked `ERROR`, its acquire fence moved to the release slot,
and fed to `processCaptureResult`; for `ERROR_DEVICE` the captures are
cleared (the subsequent session `close()` is teardown outside the tracker
and is elided — `flush` only ever passes `ERROR_BUFFER`).  The C++ function
returns `Status::OK` on every path. -/
def processCaptureBufferError (t : CameraTracker) (captureId : Nat)
    (streamBuffer : StreamBuffer) (error : ErrorCode) :
    Status × CameraTracker × List SessionEvent :=
  let notify := SessionEvent.errorNotify captureId streamBuffer.streamId error
  match error with
  | .ERROR_DEVICE => (.OK, t.clearCaptures, [notify])
  | .ERROR_REQUEST => (.OK, t, [notify])
  | .ERROR_RESULT => (.OK, t, [notify])
  | .ERROR_BUFFER =>
    let streamBuffer' :=
      { streamBuffer with
          status := .ERROR, releaseFence := streamBuffer.acquireFence,
          acquireFence := none }
    let (_, t', evs) := processCaptureResultOp t captureId streamBuffer'
    (.OK, t', notify :: evs)

/-- The `while (hasActiveCapture())` loop of `CameraDeviceSession::flush`,
with explicit fuel: each iteration pops the next pending output buffer and,
when one exists, reports it as an `ERROR_BUFFER`.  `none` means the fuel ran
out with the loop still running. -/
def flushLoop : Nat → CameraTracker → Option (CameraTracker × List SessionEvent)
  | 0, _ => none
  | fuel + 1, t =>
    if t.hasActiveCapture then
      let (buf, captureId, t1) := t.popNextOutputBuffer
      if captureId ≥ 0 then
        let (_, t2, evs) := processCaptureBufferError t1 captureId.toNat buf .ERROR_BUFFER
        match flushLoop fuel t2 with
        | none => none
        | some (t3, evs') => some (t3, evs ++ evs')
      else
        flushLoop fuel t1
    else some (t, [])

/-- `CameraDeviceSession::flush`: when `initStatus()` is `OK`, drain the
tracker through the loop above, then stop streaming (`StreamOff`, a driver
call outside the tracker state) and clear `started_`.  `none` in the second
component again means the drain loop did not terminate within the fuel. -/
def flush (s : CameraDeviceSession) (fuel : Nat) :
    Status × Option (CameraDeviceSession × List SessionEvent) :=
  let status := initStatus s
  if status = .OK then
    match flushLoop fuel s.cameraTracker with
    | none => (status, none)
    | some (t', evs) =>
      (status, some ({ s with cameraTracker := t', started := false }, evs))
  else (status, some (s, []))

/-- Number of pending (not yet popped) output buffers across all tracked
captures. -/
def totalPendingOutputs (t : CameraTracker) : Nat :=
  (t.captureList.map (fun c => c.outputBuffers.length)).sum

/-- Number of per-buffer error deliveries in an event trace. -/
def countBufferErrors (evs : List SessionEvent) : Nat :=
  (evs.filter fun e =>
    match e with
    | .errorNotify _ _ .ERROR_BUFFER => true
    | _ => false).length

/-! ## Concrete fixtures used by counterexamples and witnesses -/

/-- Rounding up to the nearest even number, as the spec describes the crop
width adjustment. -/
def roundUpEven (n : Nat) : Nat := if n % 2 = 1 then n + 1 else n

/-- A YUYV capture entry at VGA resolution. -/
def yuyvVga : StreamFormat :=
  { type := V4L2_BUF_TYPE_VIDEO_CAPTURE, v4l2PixelFormat := V4L2_PIX_FMT_YUYV,
    width := 640, height := 480 }

/-- Trivial external-kernel bundle (every library call succeeds and writes
nothing), used to instantiate witnesses. -/
def extTrivial : ExtConvertOps :=
  { yuy2ToI420 := fun _ _ => (0, [])
    i420Copy := fun _ _ => (0, [])
    i420ToABGR := fun _ _ => (0, [])
    i420ToARGB := fun _ _ => (0, [])
    mjpgToI420 := fun _ _ => (0, [])
    convertToJpeg := fun _ _ _ => (true, []) }

/-- A 3×4 (odd-width) YUYV source frame. -/
def oddInFrame : FrameBuffer :=
  { data := [], dataSize := 0, bufferSize := 24, width := 3, height := 4,
    fourcc := V4L2_PIX_FMT_YUYV, kind := .v4l2 }

/-- A YU12 destination frame. -/
def yu12OutFrame : FrameBuffer :=
  { data := [], dataSize := 0, bufferSize := 64, width := 4, height := 4,
    fourcc := V4L2_PIX_FMT_YUV420, kind := .allocated }

/-! # Theorems for the claims -/

/-- C1: `GetQualifiedStreams` evaluated at the failing input — one qualified
fourcc (YUYV) and a supported list containing the same resolution twice.
The result holds two entries with the same (width, height): the duplicate
check `FindFormatByResolution(qualified_streams, w, h) > 0` treats a match
at index `0` as "not found" (its helper's documented not-found value is
`-1`), so the duplicate of the very first qualified stream is pushed
again. -/
theorem getQualifiedStreams_duplicates_first_resolution :
    getQualifiedStreams [V4L2_PIX_FMT_YUYV] [yuyvVga, yuyvVga] = [yuyvVga, yuyvVga] ∧
    ¬ List.Pairwise
        (fun a b : StreamFormat => ¬(a.width = b.width ∧ a.height = b.height))
        (getQualifiedStreams [V4L2_PIX_FMT_YUYV] [yuyvVga, yuyvVga]) := by
  constructor
  · rfl
  · decide

/-- The empty tracker. -/
def emptyTracker : CameraTracker := { trackedStreams := [], captureList := [] }

/-- A one-output capture request with frame number 5. -/
def requestFive : CaptureRequest :=
  { frameNumber := 5,
    outputBuffers := [{ streamId := 0, bufferId := 1, buffer := some 3,
                        status := .OK, acquireFence := none,
                        releaseFence := none }],
    inputBuffer := InvalidStreamBuffer }

/-- C2 counterexample: `trackCapture` is not idempotent per request id —
tracking the same request twice from the empty tracker yields a different
capture list than tracking it once (both calls do return the frame
number). -/
theorem trackCapture_twice_differs :
    ((emptyTracker.trackCapture requestFive).2.trackCapture requestFive).2 ≠
      (emptyTracker.trackCapture requestFive).2 ∧
    (emptyTracker.trackCapture requestFive).1 = 5 ∧
    ((emptyTracker.trackCapture requestFive).2.trackCapture requestFive).1 = 5 := by
  decide

/-- C2 amended: each `trackCapture` call appends one tracked entry keyed by
the request's frame number and returns that frame number; calling it twice
with the same request therefore grows the capture list by two entries
rather than being idempotent. -/
theorem trackCapture_appends (t : CameraTracker) (request : CaptureRequest) :
    (t.trackCapture request).1 = Int.ofNat request.frameNumber ∧
    (t.trackCapture request).2.captureList.length = t.captureList.length + 1 ∧
    ((t.trackCapture request).2.trackCapture request).2.captureList.length =
      t.captureList.length + 2 := by
  refine ⟨rfl, ?_, ?_⟩ <;>
    simp [CameraTracker.trackCapture]

/-- C10: both `SetDataSize` variants preserve `used-size ≤ capacity`, but
differently: the base `FrameBuffer::SetDataSize` rejects a size above the
capacity with `-EINVAL` and leaves the buffer untouched, while
`AllocatedFrameBuffer::SetDataSize` never fails — an oversized request
grows the capacity to exactly the requested size before storing it. -/
theorem setDataSize_variants (b : FrameBuffer) (n : Nat)
    (hinv : b.dataSize ≤ b.bufferSize) :
    (n > b.bufferSize → frameBufferSetDataSize b n = (-22, b)) ∧
    (n ≤ b.bufferSize →
      (frameBufferSetDataSize b n).1 = 0 ∧
      (frameBufferSetDataSize b n).2.dataSize = n) ∧
    (frameBufferSetDataSize b n).2.dataSize ≤ (frameBufferSetDataSize b n).2.bufferSize ∧
    (allocatedFrameBufferSetDataSize b n).1 = 0 ∧
    (allocatedFrameBufferSetDataSize b n).2.dataSize = n ∧
    (n > b.bufferSize → (allocatedFrameBufferSetDataSize b n).2.bufferSize = n) ∧
    (allocatedFrameBufferSetDataSize b n).2.dataSize ≤
      (allocatedFrameBufferSetDataSize b n).2.bufferSize := by
  unfold frameBufferSetDataSize allocatedFrameBufferSetDataSize
  by_cases h : n > b.bufferSize
  · simp [h, hinv]
  · simp [h, hinv, Nat.not_lt.mp h]

/-- C10 witness: the theorem applied to a concrete buffer whose used size
respects its capacity. -/
theorem setDataSize_variants_witness :
    (10 > yu12OutFrame.bufferSize → frameBufferSetDataSize yu12OutFrame 10 = (-22, yu12OutFrame)) ∧
    (10 ≤ yu12OutFrame.bufferSize →
      (frameBufferSetDataSize yu12OutFrame 10).1 = 0 ∧
      (frameBufferSetDataSize yu12OutFrame 10).2.dataSize = 10) ∧
    (frameBufferSetDataSize yu12OutFrame 10).2.dataSize ≤
      (frameBufferSetDataSize yu12OutFrame 10).2.bufferSize ∧
    (allocatedFrameBufferSetDataSize yu12OutFrame 10).1 = 0 ∧
    (allocatedFrameBufferSetDataSize yu12OutFrame 10).2.dataSize = 10 ∧
    (10 > yu12OutFrame.bufferSize →
      (allocatedFrameBufferSetDataSize yu12OutFrame 10).2.bufferSize = 10) ∧
    (allocatedFrameBufferSetDataSize yu12OutFrame 10).2.dataSize ≤
      (allocatedFrameBufferSetDataSize yu12OutFrame 10).2.bufferSize :=
  setDataSize_variants yu12OutFrame 10 (by decide)

/-- C7 counterexample: width `0` is even, `YUV420` is a supported format,
yet `GetConvertedSize` returns `0`, not a strictly positive size. -/
theorem getConvertedSize_zero_at_zero_width :
    getConvertedSize V4L2_PIX_FMT_YUV420 0 2 = 0 ∧ 0 % 2 = 0 ∧ 2 % 2 = 0 := by
  decide

/-- C7 amended: for each supported format (YVU420, YUV420, NV21, BGR32,
RGB32) and positive even width and height, `GetConvertedSize` is strictly
positive.  Determinism/purity is definitional: the embedding is a total
function of exactly its three arguments, mirroring the stateless C++
computation. -/
theorem getConvertedSize_pos (fourcc width height : Nat)
    (hf : fourcc = V4L2_PIX_FMT_YVU420 ∨ fourcc = V4L2_PIX_FMT_YUV420 ∨
      fourcc = V4L2_PIX_FMT_NV21 ∨ fourcc = V4L2_PIX_FMT_BGR32 ∨
      fourcc = V4L2_PIX_FMT_RGB32)
    (hw : width % 2 = 0) (hh : height % 2 = 0)
    (hw0 : 0 < width) (hh0 : 0 < height) :
    0 < getConvertedSize fourcc width height := by
  have halign : 0 < align16 width := by
    have h16 : (16 : Nat) ≤ width + 15 := by omega
    have : 1 ≤ (width + 15) / 16 := (Nat.le_div_iff_mul_le (by norm_num)).mpr (by omega)
    unfold align16
    omega
  have h32 : 2 ≤ width * height * 3 := by nlinarith
  rcases hf with hf | hf | hf | hf | hf <;> subst hf <;>
    simp [getConvertedSize, hw, hh, V4L2_PIX_FMT_YVU420, V4L2_PIX_FMT_YUV420,
      V4L2_PIX_FMT_NV21, V4L2_PIX_FMT_BGR32, V4L2_PIX_FMT_RGB32] <;>
    first
      | exact Or.inl ⟨halign, hh0⟩
      | exact Nat.div_pos (by omega) (by norm_num)
      | exact ⟨hw0, hh0⟩

/-- C7 witness: the amended theorem applied at YUV420, 640×480. -/
theorem getConvertedSize_pos_witness :
    0 < getConvertedSize V4L2_PIX_FMT_YUV420 640 480 :=
  getConvertedSize_pos V4L2_PIX_FMT_YUV420 640 480 (Or.inr (Or.inl rfl))
    rfl rfl (by decide) (by decide)

/-- C6: odd dimensions are rejected everywhere — `GetConvertedSize` returns
the unsupported size `0` for every pixel format, and `ConvertFormat`
returns `-EINVAL` before touching the output frame. -/
theorem odd_dimensions_rejected :
    (∀ fourcc width height : Nat, width % 2 = 1 ∨ height % 2 = 1 →
      getConvertedSize fourcc width height = 0) ∧
    (∀ (ext : ExtConvertOps) (metadata : CameraMetadata)
        (inFrame outFrame : FrameBuffer),
      inFrame.width % 2 = 1 ∨ inFrame.height % 2 = 1 →
      convertFormat ext metadata inFrame outFrame = (-22, outFrame)) := by
  constructor
  · intro fourcc width height h
    unfold getConvertedSize
    rcases h with h | h <;> simp [h]
  · intro ext metadata inFrame outFrame h
    unfold convertFormat
    rcases h with h | h <;> simp [h]

/-- C6 witness: the theorem applied to a concrete odd-width frame. -/
theorem odd_dimensions_rejected_witness :
    getConvertedSize V4L2_PIX_FMT_YUV420 3 4 = 0 ∧
    convertFormat extTrivial [] oddInFrame yu12OutFrame = (-22, yu12OutFrame) :=
  ⟨odd_dimensions_rejected.1 V4L2_PIX_FMT_YUV420 3 4 (Or.inl rfl),
   odd_dimensions_rejected.2 extTrivial [] oddInFrame yu12OutFrame (Or.inl rfl)⟩

/-- C4: for a canonical frame with even dimensions, `width ≥ height`, under
a 90/270 rotation with both libyuv stages succeeding, `CropRotateScale`'s
rotated intermediate has width equal to the source height and height equal
to the crop width `h*h/w` rounded up to the nearest even number, and the
scale destination is the source frame itself, so the final output keeps the
original width×height; any other rotation argument is rejected with
`-EINVAL`.  (`0 < width` confines the statement to inputs where the C++
division `h*h/w` is defined; the caller reaches this code only after
`ConvertToYU12` succeeded, which forces positive dimensions.) -/
theorem cropRotateScale_geometry (width height : Nat)
    (rotateDegree convertToI420Res i420ScaleRes : Int)
    (hw : width % 2 = 0) (hh : height % 2 = 0) (hhw : height ≤ width)
    (_hw0 : 0 < width) :
    (rotateDegree = 90 ∨ rotateDegree = 270 →
      convertToI420Res = 0 → i420ScaleRes = 0 →
      ∃ g, cropRotateScale width height rotateDegree convertToI420Res i420ScaleRes =
          .ok g ∧
        g.rotatedWidth = height ∧
        g.rotatedHeight = roundUpEven (height * height / width) ∧
        g.dstWidth = width ∧ g.dstHeight = height) ∧
    (rotateDegree ≠ 90 → rotateDegree ≠ 270 →
      cropRotateScale width height rotateDegree convertToI420Res i420ScaleRes =
        .error (-22)) := by
  have hnot : ¬(height % 2 ≠ 0 ∨ width % 2 ≠ 0) := by simp [hw, hh]
  have hnot2 : ¬height > width := Nat.not_lt.mpr hhw
  constructor
  · rintro hdeg rfl rfl
    have heq : cropRotateScale width height rotateDegree 0 0 =
        .ok { croppedWidth := roundUpEven (height * height / width),
              croppedHeight := height,
              margin := (width - roundUpEven (height * height / width)) / 2,
              rotatedWidth := height,
              rotatedHeight := roundUpEven (height * height / width),
              dstWidth := width, dstHeight := height } := by
      unfold cropRotateScale roundUpEven
      rcases hdeg with rfl | rfl <;> simp [hnot, hnot2, hw, hh]
    exact ⟨_, heq, rfl, rfl, rfl, rfl⟩
  · intro h90 h270
    unfold cropRotateScale
    simp [hnot, hnot2, h90, h270, hw, hh]

/-- C4 witness: the theorem applied to the spec's 4:3 scenario — a 640×480
canonical frame rotated 90°: rotated intermediate 480 wide and
`roundUpEven (480·480/640) = 360` high, final output 640×480; rotation 180
is rejected. -/
theorem cropRotateScale_geometry_witness :
    (∃ g, cropRotateScale 640 480 90 0 0 = .ok g ∧
      g.rotatedWidth = 480 ∧ g.rotatedHeight = roundUpEven (480 * 480 / 640) ∧
      g.dstWidth = 640 ∧ g.dstHeight = 480) ∧
    cropRotateScale 640 480 180 0 0 = .error (-22) :=
  ⟨(cropRotateScale_geometry 640 480 90 0 0 rfl rfl (by decide) (by decide)).1
      (Or.inl rfl) rfl rfl,
   (cropRotateScale_geometry 640 480 180 0 0 rfl rfl (by decide) (by decide)).2
      (by decide) (by decide)⟩

/-- An S_FMT oracle whose ioctl fails while still reporting back exactly the
requested format. -/
def devIoctlFails : StreamFormat → SFmtResult := fun f => ⟨-1, f, 0⟩

/-- A wrapper with no negotiated format yet. -/
def wrapperEmpty : V4L2Wrapper := { format := none, bufferSize := 0 }

/-- C5 counterexample: when the `VIDIOC_S_FMT` ioctl itself fails,
`SetFormat` returns `-ENODEV` even though the device's reported format
equals the requested triple — so "fails exactly when the reported format
differs" does not hold. -/
theorem setFormat_fails_with_matching_report :
    setFormat wrapperEmpty devIoctlFails yuyvVga = (-19, wrapperEmpty) ∧
    (devIoctlFails yuyvVga).reported = yuyvVga ∧
    wrapperEmpty.format ≠ some yuyvVga := by
  decide

/-- C5 amended: requesting the already-negotiated format succeeds without
any device command and leaves the wrapper unchanged; otherwise `SetFormat`
issues `VIDIOC_S_FMT` and fails exactly when the ioctl fails or the
device's reported format differs from the requested triple, leaving the
stored format unchanged on failure and storing the reported format (and its
buffer size) on success. -/
theorem setFormat_spec (w : V4L2Wrapper) (dev : StreamFormat → SFmtResult)
    (resolvedFormat : StreamFormat) :
    (w.format = some resolvedFormat →
      setFormat w dev resolvedFormat = (0, w)) ∧
    (w.format ≠ some resolvedFormat →
      (((setFormat w dev resolvedFormat).1 ≠ 0) ↔
        ((dev resolvedFormat).ret < 0 ∨ (dev resolvedFormat).reported ≠ resolvedFormat)) ∧
      ((setFormat w dev resolvedFormat).1 ≠ 0 →
        (setFormat w dev resolvedFormat).2 = w) ∧
      ((setFormat w dev resolvedFormat).1 = 0 →
        (setFormat w dev resolvedFormat).2.format = some resolvedFormat ∧
        (setFormat w dev resolvedFormat).2.bufferSize = (dev resolvedFormat).sizeimage)) := by
  constructor
  · intro h
    simp only [setFormat, if_pos h]
  · intro h
    by_cases hret : (dev resolvedFormat).ret < 0
    · have he : setFormat w dev resolvedFormat = (-19, w) := by
        simp only [setFormat, if_neg h, if_pos hret]
      rw [he]
      exact ⟨iff_of_true (by norm_num) (Or.inl hret), fun _ => rfl,
        fun h0 => absurd h0 (by norm_num)⟩
    · by_cases hrep : resolvedFormat ≠ (dev resolvedFormat).reported
      · have he : setFormat w dev resolvedFormat = (-22, w) := by
          simp only [setFormat, if_neg h, if_neg hret, if_pos hrep]
        rw [he]
        exact ⟨iff_of_true (by norm_num) (Or.inr (Ne.symm hrep)), fun _ => rfl,
          fun h0 => absurd h0 (by norm_num)⟩
      · have hrep' : resolvedFormat = (dev resolvedFormat).reported := by
          push_neg at hrep
          exact hrep
        have he : setFormat w dev resolvedFormat =
            (0, { format := some (dev resolvedFormat).reported,
                  bufferSize := (dev resolvedFormat).sizeimage }) := by
          simp only [setFormat, if_neg h, if_neg hret, if_neg hrep]
        rw [he]
        refine ⟨iff_of_false (by norm_num) ?_, fun hne => absurd rfl hne,
          fun _ => ⟨congrArg some hrep'.symm, rfl⟩⟩
        exact not_or.mpr ⟨hret, fun hne => hne hrep'.symm⟩

/-- C5 witness: the amended theorem applied to a concrete wrapper that
already negotiated the requested format (the no-op branch) and to the
failing-ioctl oracle (the failure branch: error code, state unchanged). -/
theorem setFormat_spec_witness :
    setFormat { format := some yuyvVga, bufferSize := 7 } devIoctlFails yuyvVga =
      (0, { format := some yuyvVga, bufferSize := 7 }) ∧
    ((setFormat wrapperEmpty devIoctlFails yuyvVga).1 ≠ 0 →
      (setFormat wrapperEmpty devIoctlFails yuyvVga).2 = wrapperEmpty) :=
  ⟨(setFormat_spec { format := some yuyvVga, bufferSize := 7 } devIoctlFails yuyvVga).1
      rfl,
   ((setFormat_spec wrapperEmpty devIoctlFails yuyvVga).2 (by decide)).2.1⟩

/-- C9: `isCaptureCompleted` is `1` exactly when the first tracked capture
matching the id has an empty pending-output queue and an absent pending
input (stream id `-1`); it is `0` when that capture is incomplete; and it
is the distinguished not-found value `-1` (neither 0 nor 1) for an id that
is not tracked. -/
theorem isCaptureCompleted_spec (t : CameraTracker) (captureId : Nat) :
    (∀ c, t.captureList.find? (fun c => c.id == captureId) = some c →
      t.isCaptureCompleted captureId =
        if c.outputBuffers = [] ∧ c.inputBuffer.streamId = -1 then 1 else 0) ∧
    (t.captureList.find? (fun c => c.id == captureId) = none →
      t.isCaptureCompleted captureId = -1) ∧
    (t.isCaptureCompleted captureId = -1 ∨ t.isCaptureCompleted captureId = 0 ∨
      t.isCaptureCompleted captureId = 1) := by
  unfold CameraTracker.isCaptureCompleted
  induction t.captureList with
  | nil => exact ⟨by intro c h; simp at h, fun _ => rfl, Or.inl rfl⟩
  | cons c rest ih =>
    refine ⟨?_, ?_, ?_⟩
    · intro c' h
      by_cases hid : c.id = captureId
      · rw [List.find?_cons_of_pos _ (by simpa using hid)] at h
        cases h
        simp [isCaptureCompletedLoop, hid]
      · rw [List.find?_cons_of_neg _ (by simpa using hid)] at h
        simpa [isCaptureCompletedLoop, hid] using ih.1 c' h
    · intro h
      by_cases hid : c.id = captureId
      · rw [List.find?_cons_of_pos _ (by simpa using hid)] at h
        cases h
      · rw [List.find?_cons_of_neg _ (by simpa using hid)] at h
        simpa [isCaptureCompletedLoop, hid] using ih.2.1 h
    · by_cases hid : c.id = captureId
      · by_cases hc : c.outputBuffers = [] ∧ c.inputBuffer.streamId = -1 <;>
          simp [isCaptureCompletedLoop, hid, hc]
      · simpa [isCaptureCompletedLoop, hid] using ih.2.2

/-- A tracker with one completed capture (id 5, nothing pending). -/
def trackerCompletedFive : CameraTracker :=
  { trackedStreams := [],
    captureList := [{ id := 5, outputBuffers := [], inputBuffer := InvalidStreamBuffer,
                      outputResults := [], inputResult := InvalidStreamBuffer }] }

/-- C9 witness: the theorem applied to a concrete tracker — id 5 is tracked
and complete (result `1`), id 9 is untracked (result `-1`). -/
theorem isCaptureCompleted_spec_witness :
    trackerCompletedFive.isCaptureCompleted 5 = 1 ∧
    trackerCompletedFive.isCaptureCompleted 9 = -1 := by
  constructor
  · have h := (isCaptureCompleted_spec trackerCompletedFive 5).1
      { id := 5, outputBuffers := [], inputBuffer := InvalidStreamBuffer,
        outputResults := [], inputResult := InvalidStreamBuffer } (by decide)
    simpa using h
  · exact (isCaptureCompleted_spec trackerCompletedFive 9).2.1 (by decide)

/-- C8: stream configuration verification never succeeds while a capture is
in flight — `configureStreamsVerification` checks
`camera_tracker_.hasActiveCapture()` before anything else and returns
`INTERNAL_ERROR`, and `configureStreams` returns on that failure before
touching any stream or driver state (the verification itself is a pure
read, which the embedding reflects by returning only a `Status`);
conversely a verification that returns `OK` can only have run on a tracker
with no active capture, i.e. after the in-flight captures completed
(`untrackCapture`) or were flushed (`clearCaptures`/drain). -/
theorem configureStreamsVerification_blocks_inflight (s : CameraDeviceSession)
    (requestedConfiguration : StreamConfiguration) :
    (s.cameraTracker.hasActiveCapture = true →
      configureStreamsVerification s requestedConfiguration = .INTERNAL_ERROR) ∧
    (configureStreamsVerification s requestedConfiguration = .OK →
      s.cameraTracker.hasActiveCapture = false) := by
  constructor
  · intro h
    simp only [configureStreamsVerification, h, if_pos]
  · intro h
    by_cases hact : s.cameraTracker.hasActiveCapture
    · rw [configureStreamsVerification] at h
      simp only [hact, if_pos] at h
      exact absurd h (by decide)
    · simpa using hact

/-- A session whose tracker still holds one in-flight capture. -/
def sessionInflight : CameraDeviceSession :=
  { initFail := false, disconnected := false, closed := false, started := true,
    cameraTracker :=
      { trackedStreams := [],
        captureList := [{ id := 3,
                          outputBuffers := [{ streamId := 0, bufferId := 2,
                                              buffer := none, status := .OK,
                                              acquireFence := none,
                                              releaseFence := none }],
                          inputBuffer := InvalidStreamBuffer,
                          outputResults := [],
                          inputResult := InvalidStreamBuffer }] } }

/-! ### Flush-loop step lemmas (towards C3)

One iteration of the `flush` drain loop, on a tracker whose first capture
has a non-empty pending-output queue and no pending input: the front buffer
is popped and reported as an `ERROR_BUFFER`; when it was the capture's last
pending output the capture completes and is untracked (shutter and result
delivery follow the error notification), otherwise only the error
notification is emitted. -/

/-- The buffer as `processCaptureBufferError` rewrites it for an
`ERROR_BUFFER` report: status forced to `ERROR`, acquire fence moved to the
release slot. -/
def erroredBuffer (b : StreamBuffer) : StreamBuffer :=
  { b with status := .ERROR, releaseFence := b.acquireFence, acquireFence := none }

/-- A tracked capture after one flush iteration popped its front pending
output `b` and saved it as an errored result, leaving `bs` pending. -/
def advanceCapture (c : TrackedCapture) (b : StreamBuffer) (bs : List StreamBuffer) :
    TrackedCapture :=
  { c with outputBuffers := bs, outputResults := c.outputResults ++ [erroredBuffer b] }

theorem flushLoop_step_last (fuel : Nat) (ts : List (Nat × Stream))
    (c : TrackedCapture) (rest : List TrackedCapture) (b : StreamBuffer)
    (hout : c.outputBuffers = [b]) (hinp : c.inputBuffer.streamId = -1) :
    flushLoop (fuel + 1) ⟨ts, c :: rest⟩ =
      match flushLoop fuel ⟨ts, rest⟩ with
      | none => none
      | some (t3, evs') =>
        some (t3,
          .errorNotify c.id b.streamId .ERROR_BUFFER ::
          .shutterNotify c.id ::
          .captureResult c.id (c.outputResults ++ [erroredBuffer b])
            c.inputResult :: evs') := by
  simp [flushLoop, CameraTracker.hasActiveCapture, CameraTracker.popNextOutputBuffer,
    popNextOutputBufferLoop, hout, processCaptureBufferError, processCaptureResultOp,
    CameraTracker.saveOutputBuffer, saveOutputBufferLoop,
    CameraTracker.isCaptureCompleted, isCaptureCompletedLoop, hinp,
    CameraTracker.popInputResult, popInputResultLoop,
    CameraTracker.popOutputResults, popOutputResultsLoop,
    CameraTracker.untrackCapture, untrackCaptureLoop, erroredBuffer]

theorem flushLoop_step_more (fuel : Nat) (ts : List (Nat × Stream))
    (c : TrackedCapture) (rest : List TrackedCapture) (b b2 : StreamBuffer)
    (bs : List StreamBuffer)
    (hout : c.outputBuffers = b :: b2 :: bs) (hinp : c.inputBuffer.streamId = -1) :
    flushLoop (fuel + 1) ⟨ts, c :: rest⟩ =
      match flushLoop fuel ⟨ts, advanceCapture c b (b2 :: bs) :: rest⟩ with
      | none => none
      | some (t3, evs') =>
        some (t3, .errorNotify c.id b.streamId .ERROR_BUFFER :: evs') := by
  simp [flushLoop, CameraTracker.hasActiveCapture, CameraTracker.popNextOutputBuffer,
    popNextOutputBufferLoop, hout, processCaptureBufferError, processCaptureResultOp,
    CameraTracker.saveOutputBuffer, saveOutputBufferLoop,
    CameraTracker.isCaptureCompleted, isCaptureCompletedLoop, hinp, erroredBuffer,
    advanceCapture]

/-- When every tracked capture's pending-output queue is already empty, an
iteration of the drain loop pops nothing and changes nothing. -/
theorem popNextOutputBufferLoop_all_empty (caps : List TrackedCapture)
    (h : ∀ c ∈ caps, c.outputBuffers = []) :
    popNextOutputBufferLoop caps = (InvalidStreamBuffer, -1, caps) := by
  induction caps with
  | nil => rfl
  | cons c rest ih =>
    have hc := h c (by simp)
    have hrest := ih (fun c hc => h c (by simp [hc]))
    simp [popNextOutputBufferLoop, hc, hrest]

theorem flushLoop_step_all_empty (fuel : Nat) (ts : List (Nat × Stream))
    (caps : List TrackedCapture) (hne : caps ≠ [])
    (h : ∀ c ∈ caps, c.outputBuffers = []) :
    flushLoop (fuel + 1) ⟨ts, caps⟩ = flushLoop fuel ⟨ts, caps⟩ := by
  have hactive : CameraTracker.hasActiveCapture ⟨ts, caps⟩ = true := by
    cases caps with
    | nil => exact absurd rfl hne
    | cons c rest => simp [CameraTracker.hasActiveCapture]
  simp [flushLoop, hactive, CameraTracker.popNextOutputBuffer,
    popNextOutputBufferLoop_all_empty caps h]

/-- C8 witness: the theorem applied to a session with one in-flight
capture and a well-formed one-output-stream configuration. -/
theorem configureStreamsVerification_blocks_inflight_witness :
    configureStreamsVerification sessionInflight
      { streams := [{ id := 0, streamType := .OUTPUT, width := 640, height := 480,
                      format := PixelFormat.IMPLEMENTATION_DEFINED, usage := 0,
                      dataSpace := 0, rotation := .ROTATION_0 }] } =
      .INTERNAL_ERROR :=
  (configureStreamsVerification_blocks_inflight sessionInflight
    { streams := [{ id := 0, streamType := .OUTPUT, width := 640, height := 480,
                    format := PixelFormat.IMPLEMENTATION_DEFINED, usage := 0,
                    dataSpace := 0, rotation := .ROTATION_0 }] }).1 (by decide)

/-- Total pending outputs of a capture list. -/
def totalPendingList (caps : List TrackedCapture) : Nat :=
  (caps.map (fun c => c.outputBuffers.length)).sum

/-- Core drain lemma: when every tracked capture still has at least one
pending output and no pending input, the flush loop terminates within
`total + 1` iterations, empties the capture list, and emits exactly one
`ERROR_BUFFER` notification per pending output. -/
theorem flushLoop_drains (n : Nat) :
    ∀ (ts : List (Nat × Stream)) (caps : List TrackedCapture),
      totalPendingList caps = n →
      (∀ c ∈ caps, c.outputBuffers ≠ [] ∧ c.inputBuffer.streamId = -1) →
      ∃ evs, flushLoop (n + 1) ⟨ts, caps⟩ = some (⟨ts, []⟩, evs) ∧
        countBufferErrors evs = n := by
  induction n with
  | zero =>
    intro ts caps htot hgood
    have hnil : caps = [] := by
      cases caps with
      | nil => rfl
      | cons c rest =>
        exfalso
        have h1 := (hgood c (by simp)).1
        have hsum : c.outputBuffers.length + totalPendingList rest = 0 := by
          simpa [totalPendingList] using htot
        exact h1 (List.eq_nil_of_length_eq_zero (by omega))
    subst hnil
    exact ⟨[], by simp [flushLoop, CameraTracker.hasActiveCapture], rfl⟩
  | succ m ih =>
    intro ts caps htot hgood
    cases caps with
    | nil => simp [totalPendingList] at htot
    | cons c rest =>
      obtain ⟨hne, hinp⟩ := hgood c (by simp)
      have hgoodRest : ∀ c' ∈ rest, c'.outputBuffers ≠ [] ∧
          c'.inputBuffer.streamId = -1 :=
        fun c' hc' => hgood c' (by simp [hc'])
      cases hout : c.outputBuffers with
      | nil => exact absurd hout hne
      | cons b bs =>
        cases bs with
        | nil =>
          have htotRest : totalPendingList rest = m := by
            simp [totalPendingList, hout] at htot ⊢
            omega
          obtain ⟨evs', heq', hcount'⟩ := ih ts rest htotRest hgoodRest
          refine ⟨.errorNotify c.id b.streamId .ERROR_BUFFER ::
            .shutterNotify c.id ::
            .captureResult c.id (c.outputResults ++ [erroredBuffer b])
              c.inputResult :: evs', ?_, ?_⟩
          · rw [flushLoop_step_last (m + 1) ts c rest b hout hinp, heq']
          · simp [countBufferErrors] at hcount' ⊢
            omega
        | cons b2 bs2 =>
          have htotNext :
              totalPendingList (advanceCapture c b (b2 :: bs2) :: rest) = m := by
            simp [totalPendingList, advanceCapture, hout] at htot ⊢
            omega
          have hgoodNext : ∀ c' ∈ advanceCapture c b (b2 :: bs2) :: rest,
              c'.outputBuffers ≠ [] ∧ c'.inputBuffer.streamId = -1 := by
            intro c' hc'
            rcases List.mem_cons.mp hc' with rfl | hc'
            · exact ⟨by simp [advanceCapture], hinp⟩
            · exact hgoodRest c' hc'
          obtain ⟨evs', heq', hcount'⟩ := ih ts _ htotNext hgoodNext
          refine ⟨.errorNotify c.id b.streamId .ERROR_BUFFER :: evs', ?_, ?_⟩
          · rw [flushLoop_step_more (m + 1) ts c rest b b2 bs2 hout hinp, heq']
          · simp [countBufferErrors] at hcount' ⊢
            omega

/-- C3 amended: on an operational session (`initStatus` is `OK`) whose
tracker holds `M` pending output buffers, with every tracked capture still
holding at least one pending output and no pending input, a flush delivers
exactly `M` per-buffer `ERROR_BUFFER` notifications and terminates with
zero tracked captures and zero pending outputs. -/
theorem flush_drains_all_pending (s : CameraDeviceSession)
    (hok : initStatus s = .OK)
    (hgood : ∀ c ∈ s.cameraTracker.captureList,
      c.outputBuffers ≠ [] ∧ c.inputBuffer.streamId = -1) :
    ∃ s' evs,
      flush s (totalPendingOutputs s.cameraTracker + 1) = (.OK, some (s', evs)) ∧
      s'.cameraTracker.captureList = [] ∧
      totalPendingOutputs s'.cameraTracker = 0 ∧
      countBufferErrors evs = totalPendingOutputs s.cameraTracker := by
  obtain ⟨i, d, cl, st, ⟨ts, caps⟩⟩ := s
  obtain ⟨evs, heq, hcount⟩ := flushLoop_drains (totalPendingList caps) ts caps rfl hgood
  refine ⟨⟨i, d, cl, false, ⟨ts, []⟩⟩, evs, ?_, rfl, rfl, ?_⟩
  · simp only [flush, hok, if_pos, totalPendingOutputs]
    have heq' : flushLoop ((caps.map (fun c => c.outputBuffers.length)).sum + 1)
        ⟨ts, caps⟩ = some (⟨ts, []⟩, evs) := heq
    rw [heq']
  · simpa [totalPendingOutputs, totalPendingList] using hcount

/-- A session with one tracked capture holding one pending output and no
pending input, used to witness the flush-drain theorem. -/
def flushableSession : CameraDeviceSession :=
  { initFail := false, disconnected := false, closed := false, started := true,
    cameraTracker :=
      { trackedStreams := [],
        captureList := [{ id := 21,
                          outputBuffers := [{ streamId := 0, bufferId := 5,
                                              buffer := none, status := .OK,
                                              acquireFence := none,
                                              releaseFence := none }],
                          inputBuffer := InvalidStreamBuffer,
                          outputResults := [],
                          inputResult := InvalidStreamBuffer }] } }

/-- C3 witness: the drain theorem applied to a concrete session holding one
pending output. -/
theorem flush_drains_all_pending_witness :
    ∃ s' evs,
      flush flushableSession (totalPendingOutputs flushableSession.cameraTracker + 1) =
        (.OK, some (s', evs)) ∧
      s'.cameraTracker.captureList = [] ∧
      totalPendingOutputs s'.cameraTracker = 0 ∧
      countBufferErrors evs = totalPendingOutputs flushableSession.cameraTracker :=
  flush_drains_all_pending flushableSession rfl (by decide)

/-- The pending output of the reprocessing-style request used in the C3
counterexample. -/
def pendingOutBuf : StreamBuffer :=
  { streamId := 0, bufferId := 9, buffer := none, status := .OK,
    acquireFence := none, releaseFence := none }

/-- A tracked capture that still holds one pending output and a pending
input buffer (stream id 2): nothing in the session ever pops or completes
pending inputs, so this capture can never complete. -/
def pendingInputCap : TrackedCapture :=
  { id := 7,
    outputBuffers := [pendingOutBuf],
    inputBuffer := { streamId := 2, bufferId := 4, buffer := none, status := .OK,
                     acquireFence := none, releaseFence := none },
    outputResults := [],
    inputResult := InvalidStreamBuffer }

def pendingInputTracker : CameraTracker :=
  { trackedStreams := [], captureList := [pendingInputCap] }

def pendingInputSession : CameraDeviceSession :=
  { initFail := false, disconnected := false, closed := false, started := true,
    cameraTracker := pendingInputTracker }

/-- Step of the flush loop on a capture whose single pending output is
popped but whose pending input keeps it incomplete: only the error
notification is emitted and the capture stays tracked. -/
theorem flushLoop_step_input (fuel : Nat) (ts : List (Nat × Stream))
    (c : TrackedCapture) (rest : List TrackedCapture) (b : StreamBuffer)
    (hout : c.outputBuffers = [b]) (hinp : c.inputBuffer.streamId ≠ -1) :
    flushLoop (fuel + 1) ⟨ts, c :: rest⟩ =
      match flushLoop fuel ⟨ts, advanceCapture c b [] :: rest⟩ with
      | none => none
      | some (t3, evs') =>
        some (t3, .errorNotify c.id b.streamId .ERROR_BUFFER :: evs') := by
  simp [flushLoop, CameraTracker.hasActiveCapture, CameraTracker.popNextOutputBuffer,
    popNextOutputBufferLoop, hout, processCaptureBufferError, processCaptureResultOp,
    CameraTracker.saveOutputBuffer, saveOutputBufferLoop,
    CameraTracker.isCaptureCompleted, isCaptureCompletedLoop, hinp, erroredBuffer,
    advanceCapture]

/-- Once the pending-input capture's outputs are drained the flush loop is
stuck: it spins without popping anything and never terminates. -/
theorem flushLoop_stuck_on_pending_input (fuel : Nat) :
    flushLoop fuel ⟨[], [advanceCapture pendingInputCap pendingOutBuf []]⟩ = none := by
  induction fuel with
  | zero => rfl
  | succ n ih =>
    rw [flushLoop_step_all_empty n [] [advanceCapture pendingInputCap pendingOutBuf []]
      (by simp) (by intro c hc; simp at hc; simp [hc, advanceCapture])]
    exact ih

theorem flushLoop_pendingInput_none (fuel : Nat) :
    flushLoop fuel pendingInputTracker = none := by
  cases fuel with
  | zero => rfl
  | succ n =>
    have hstep := flushLoop_step_input n [] pendingInputCap [] pendingOutBuf rfl
      (by decide)
    have : pendingInputTracker = ⟨[], [pendingInputCap]⟩ := rfl
    rw [this, hstep, flushLoop_stuck_on_pending_input n]

/-- C3 counterexample: on an operational session whose tracker holds `M = 1`
pending output inside a capture that also has a pending input buffer, the
flush loop never terminates — it pops and reports the one output, after
which the capture can never complete (nothing handles pending inputs), so
`hasActiveCapture` stays true and every further iteration pops nothing.
Hence no fuel makes `flush` finish, let alone leave zero tracked
captures. -/
theorem flush_never_finishes_with_pending_input :
    (¬ ∃ r fuel, flush pendingInputSession fuel = (Status.OK, some r)) ∧
    initStatus pendingInputSession = .OK ∧
    totalPendingOutputs pendingInputSession.cameraTracker = 1 := by
  refine ⟨?_, rfl, rfl⟩
  rintro ⟨r, fuel, hr⟩
  have hflush : flush pendingInputSession fuel = (.OK, none) := by
    unfold flush
    simp [initStatus, pendingInputSession, flushLoop_pendingInput_none fuel]
  rw [hflush] at hr
  simp at hr

end CameraHal
